import Mathlib

/-!
Verification of the session-based authentication core of the
`fastapi-user-auth` repository: a shallow embedding of
`app/models.py`, `app/auth.py`, `app/services.py`, `app/database.py`
and the login route of `app/routes/public.py`, together with theorems
settling the specified properties.

Sessions are Starlette JSON-backed dictionaries; we model the values a
session may carry under its `"user"` key as association lists of
string-or-null JSON values, which covers every payload shape the
claims quantify over (missing keys, null values, out-of-bounds
strings, empty dictionaries).
-/

namespace UserAuth

/-- A JSON value stored in a session dictionary: a string or null. -/
inductive JVal where
  | str : String → JVal
  | null : JVal
deriving DecidableEq, Repr

/-- A session-carried dictionary (Python `dict` decoded from the session
cookie), as an association list. -/
abbrev Dict := List (String × JVal)

/-- Key lookup in a dictionary (Python `d.get(k)` / keyword unpacking). -/
def Dict.lookup (d : Dict) (k : String) : Option JVal :=
  match d with
  | [] => none
  | (k2, v) :: rest => if k2 = k then some v else Dict.lookup rest k

/-- Model of Python `s.startswith(p)`: `p` is a prefix of `s`, compared
code point by code point. -/
def startswith (s p : String) : Bool := p.data.isPrefixOf s.data

/-- Model of `app/models.py` class `User` (pydantic `BaseModel`): the
validated Identity of an authenticated principal.  The type has exactly
the four non-secret fields; there is no password-hash field. -/
structure User where
  username : String
  name : String
  email : Option String
  role : String
deriving DecidableEq, Repr

/-- Pydantic validation of the `email : str | None = None` field: an
absent key or a null value validates to `none`; a string validates to
itself. -/
def emailField : Option JVal → Option (Option String)
  | none => some none
  | some JVal.null => some none
  | some (JVal.str e) => some (some e)

/-- Pydantic validation of the `role : str = "user"` field: an absent
key takes the default `"user"`; a string validates to itself; a null
value fails validation (the field is not optional). -/
def roleField : Option JVal → Option String
  | none => some "user"
  | some (JVal.str r) => some r
  | some JVal.null => none

/-- Model of `User(**user_data)` in `app/auth.py`: pydantic construction
with validation.  `username` is required with `min_length=3,
max_length=50`; `name` is required with `min_length=1, max_length=100`;
`email` and `role` are validated by `emailField` and `roleField`; extra
keys are ignored (pydantic default).  `none` models a raised
`ValidationError`. -/
def User.fromDict (d : Dict) : Option User :=
  match Dict.lookup d "username" with
  | some (JVal.str u) =>
    if 3 ≤ u.length ∧ u.length ≤ 50 then
      match Dict.lookup d "name" with
      | some (JVal.str n) =>
        if 1 ≤ n.length ∧ n.length ≤ 100 then
          match emailField (Dict.lookup d "email"), roleField (Dict.lookup d "role") with
          | some e, some r => some ⟨u, n, e, r⟩
          | _, _ => none
        else none
      | _ => none
    else none
  | _ => none

/-- Model of pydantic `user.model_dump()` as used in the login route:
serializes all four fields, the optional `email` explicitly as null
when absent. -/
def User.model_dump (u : User) : Dict :=
  [("username", JVal.str u.username), ("name", JVal.str u.name),
   ("email", match u.email with | some e => JVal.str e | none => JVal.null),
   ("role", JVal.str u.role)]

/-- The per-request Starlette session, restricted to the two keys the
core owns plus the names of any other keys present (whose values the
core never reads, but which `session.clear()` removes). -/
structure Session where
  user : Option Dict
  redirect_after_login : Option String
  otherKeys : List String
deriving DecidableEq, Repr

/-- Model of Python `request.session.clear()`: removes every key. -/
def Session.clear (_ : Session) : Session := ⟨none, none, []⟩

/-- Outcome of an authorization dependency: a validated `User`, or a
raised `HTTPException(status_code, detail)`. -/
inductive AuthOutcome where
  | ok : User → AuthOutcome
  | httpError : Nat → String → AuthOutcome
deriving DecidableEq, Repr

/-- Model of `get_current_user` in `app/auth.py`.  `path` is
`request.url.path`.  Python's `if not user_data` is falsy both for an
absent `"user"` key and for an empty dictionary, so both take the
record-redirect branch; a truthy value failing validation takes the
clear-session branch.  Returns the outcome and the updated session. -/
def get_current_user (path : String) (s : Session) : AuthOutcome × Session :=
  match s.user with
  | none =>
    (.httpError 401 "No autenticado", { s with redirect_after_login := some path })
  | some d =>
    if d = [] then
      (.httpError 401 "No autenticado", { s with redirect_after_login := some path })
    else
      match User.fromDict d with
      | some u => (.ok u, s)
      | none => (.httpError 401 "Sesión inválida", Session.clear s)

/-- Model of `get_optional_user` in `app/auth.py`: returns the user when
the session holds a valid one, `None` otherwise, raising nothing and
never writing to the session. -/
def get_optional_user (s : Session) : Option User × Session :=
  match s.user with
  | none => (none, s)
  | some d =>
    if d = [] then (none, s)
    else
      match User.fromDict d with
      | some u => (some u, s)
      | none => (none, s)

/-- Model of `require_admin` in `app/auth.py`: chained after
`get_current_user`, it receives an already-authenticated `User`. -/
def require_admin (user : User) : AuthOutcome :=
  if user.role ≠ "admin" then
    .httpError 403 "Acceso denegado: se requieren permisos de administrador"
  else
    .ok user

/-- Model of `app/models.py` class `UserInDB`: the at-rest credential
record, including the password hash. -/
structure UserInDB where
  username : String
  name : String
  hashed_pass : String
  email : Option String
  role : String
deriving DecidableEq, Repr

/-- Failure raised by passlib when a stored hash token cannot be
parsed (`UnknownHashError`), the spec's `HashFormatError`. -/
inductive HashError where
  | unknownHash : HashError
deriving DecidableEq, Repr

/-- The passlib `CryptContext` of `app/database.py`, abstracted: `verify`
returns a boolean for a parseable hash and raises (models `Except.error`)
for an unparseable one. -/
structure CryptContext where
  verify : String → String → Except HashError Bool

/-- Model of `verify_password` in `app/database.py`: delegates to
`pwd_context.verify`, catching nothing. -/
def verify_password (ctx : CryptContext) (plain hashed : String) : Except HashError Bool :=
  ctx.verify plain hashed

/-- Model of the SQL lookup in `AuthService.authenticate_user`:
`SELECT ... FROM users WHERE username = :username`, first row or
absent.  `db` is the rows of the `users` table. -/
def find_by_username (db : List UserInDB) (username : String) : Option UserInDB :=
  db.find? (fun r => r.username == username)

/-- Model of `AuthService.authenticate_user` in `app/services.py`:
absent record or failed verification returns `none`; a raised hash
error is not caught and propagates; success builds the `User` from the
record's non-secret fields. -/
def authenticate_user (ctx : CryptContext) (db : List UserInDB)
    (username password : String) : Except HashError (Option User) :=
  match find_by_username db username with
  | none => .ok none
  | some r =>
    match verify_password ctx password r.hashed_pass with
    | .error e => .error e
    | .ok false => .ok none
    | .ok true => .ok (some ⟨r.username, r.name, r.email, r.role⟩)

/-- Model of lines 56-61 of `app/routes/public.py`:
`session.pop("redirect_after_login", "/dashboard")` followed by the
relative-path check discarding any value not starting with `/`. -/
def consume_target (s : Session) : String × Session :=
  let redirect_url := s.redirect_after_login.getD "/dashboard"
  let s2 : Session := { s with redirect_after_login := none }
  (if startswith redirect_url "/" then redirect_url else "/dashboard", s2)

/-- Response of the login route: the re-rendered login page with a
status and error message, or a redirect. -/
inductive LoginResponse where
  | loginError : Nat → String → LoginResponse
  | redirectTo : Nat → String → LoginResponse
deriving DecidableEq, Repr

/-- Model of the `POST /login` handler in `app/routes/public.py`: on
authentication failure re-render the login page with status 401 and the
session untouched; on success store the serialized user, consume the
redirect target and issue a 303 redirect; a raised hash error
propagates uncaught. -/
def login (ctx : CryptContext) (db : List UserInDB) (username password : String)
    (s : Session) : Except HashError (LoginResponse × Session) :=
  match authenticate_user ctx db username password with
  | .error e => .error e
  | .ok none => .ok (.loginError 401 "Usuario o contraseña incorrectos", s)
  | .ok (some user) =>
    let s1 : Session := { s with user := some user.model_dump }
    let (url, s2) := consume_target s1
    .ok (.redirectTo 303 url, s2)

/-- A concrete hasher used to instantiate witnesses: a token is
parseable exactly when it carries the algorithm tag, and verification
succeeds exactly on the matching plaintext. -/
def toyVerify (plain hashed : String) : Except HashError Bool :=
  if startswith hashed "$argon2$" then .ok (hashed == "$argon2$" ++ plain)
  else .error HashError.unknownHash

/-- A concrete `CryptContext` built from `toyVerify`. -/
def toyCtx : CryptContext := ⟨toyVerify⟩

/-- A concrete credential table with one user whose hash is parseable. -/
def toyDb : List UserInDB :=
  [⟨"alice", "Alice Doe", "$argon2$s3cret", some "alice@example.com", "user"⟩]

/-! Theorems settling the specified properties. -/

/-- C4: for a username with no stored record paired with any password,
and for a stored username paired with a password failing verification,
`authenticate_user` returns the literal same `InvalidCredentials`
outcome `.ok none`, so the two failure causes are indistinguishable to
the caller. -/
theorem C4_invalid_credentials_indistinguishable (ctx : CryptContext)
    (db : List UserInDB) (username password : String) :
    (find_by_username db username = none →
      authenticate_user ctx db username password = .ok none) ∧
    (∀ r, find_by_username db username = some r →
      verify_password ctx password r.hashed_pass = .ok false →
      authenticate_user ctx db username password = .ok none) := by
  constructor
  · intro h
    simp [authenticate_user, h]
  · intro r hr hv
    simp [authenticate_user, hr, hv]

/-- Witness for C4 at a concrete store: unknown username `bob`, and
known username `alice` with a wrong password, both yield `.ok none`. -/
theorem C4_witness :
    authenticate_user toyCtx toyDb "bob" "pw" = .ok none ∧
    authenticate_user toyCtx toyDb "alice" "wrong" = .ok none := by
  constructor
  · exact (C4_invalid_credentials_indistinguishable toyCtx toyDb "bob" "pw").1 (by decide)
  · exact (C4_invalid_credentials_indistinguishable toyCtx toyDb "alice" "wrong").2
      ⟨"alice", "Alice Doe", "$argon2$s3cret", some "alice@example.com", "user"⟩
      (by decide) (by rfl)

/-- C5: for a (username, password) pair matching a stored record,
`authenticate_user` returns a `User` whose username, name, email and
role equal the record's fields; the result is exactly that value, and
the `User` type carries no password-hash field. -/
theorem C5_success_returns_record_fields (ctx : CryptContext) (db : List UserInDB)
    (username password : String) (r : UserInDB)
    (hfind : find_by_username db username = some r)
    (hverify : verify_password ctx password r.hashed_pass = .ok true) :
    authenticate_user ctx db username password =
      .ok (some { username := r.username, name := r.name, email := r.email, role := r.role }) := by
  simp [authenticate_user, hfind, hverify]

/-- Witness for C5: `alice` with the correct password yields exactly her
stored non-secret fields. -/
theorem C5_witness :
    authenticate_user toyCtx toyDb "alice" "s3cret" =
      .ok (some { username := "alice", name := "Alice Doe",
                  email := some "alice@example.com", role := "user" }) :=
  C5_success_returns_record_fields toyCtx toyDb "alice" "s3cret"
    ⟨"alice", "Alice Doe", "$argon2$s3cret", some "alice@example.com", "user"⟩
    (by decide) (by rfl)

/-- C7: `require_admin` yields 403 with the administrator-privileges
reason exactly when the role is not `admin`, and passes an admin user
through unchanged. -/
theorem C7_require_admin_role_gate (u : User) :
    (u.role ≠ "admin" →
      require_admin u =
        .httpError 403 "Acceso denegado: se requieren permisos de administrador") ∧
    (u.role = "admin" → require_admin u = .ok u) := by
  constructor
  · intro h
    simp [require_admin, h]
  · intro h
    simp [require_admin, h]

/-- Witness for C7: a concrete non-admin user is rejected with 403 and a
concrete admin user passes through. -/
theorem C7_witness :
    require_admin ⟨"alice", "Alice Doe", none, "user"⟩ =
      .httpError 403 "Acceso denegado: se requieren permisos de administrador" ∧
    require_admin ⟨"root", "Root", none, "admin"⟩ =
      .ok ⟨"root", "Root", none, "admin"⟩ := by
  constructor
  · exact (C7_require_admin_role_gate ⟨"alice", "Alice Doe", none, "user"⟩).1 (by decide)
  · exact (C7_require_admin_role_gate ⟨"root", "Root", none, "admin"⟩).2 rfl

/-- C9: a login attempt whose credentials fail verification re-renders
the login page with status 401 and returns the session unchanged: the
`user` key is not set and a pending `redirect_after_login` survives. -/
theorem C9_failed_login_preserves_session (ctx : CryptContext) (db : List UserInDB)
    (username password : String) (s : Session)
    (h : authenticate_user ctx db username password = .ok none) :
    login ctx db username password s =
      .ok (.loginError 401 "Usuario o contraseña incorrectos", s) := by
  simp [login, h]

/-- Witness for C9: a wrong-password attempt leaves a session holding a
pending redirect target and a foreign key exactly as it was. -/
theorem C9_witness :
    login toyCtx toyDb "alice" "wrong" ⟨none, some "/profile", ["csrf"]⟩ =
      .ok (.loginError 401 "Usuario o contraseña incorrectos",
           ⟨none, some "/profile", ["csrf"]⟩) :=
  C9_failed_login_preserves_session toyCtx toyDb "alice" "wrong"
    ⟨none, some "/profile", ["csrf"]⟩ (by rfl)

/-- C6: recording a relative path then consuming returns that path and
removes it; consuming with nothing recorded returns the default
`/dashboard`; a recorded value not starting with `/` (such as
`http://evil.example/x`) is discarded in favor of the default. -/
theorem C6_redirect_continuation (s : Session) (p : String) :
    (startswith p "/" = true →
      consume_target { s with redirect_after_login := some p } =
        (p, { s with redirect_after_login := none })) ∧
    consume_target { s with redirect_after_login := none } =
      ("/dashboard", { s with redirect_after_login := none }) ∧
    consume_target { s with redirect_after_login := some "http://evil.example/x" } =
      ("/dashboard", { s with redirect_after_login := none }) := by
  refine ⟨fun h => ?_, rfl, rfl⟩
  simp [consume_target, h]

/-- Witness for C6: recording `/dashboard/reportes` and consuming yields
it once, a second consume yields `/dashboard`, and an external absolute
target is discarded. -/
theorem C6_witness :
    consume_target ⟨none, some "/dashboard/reportes", []⟩ =
      ("/dashboard/reportes", ⟨none, none, []⟩) ∧
    consume_target ⟨none, none, []⟩ = ("/dashboard", ⟨none, none, []⟩) ∧
    consume_target ⟨none, some "http://evil.example/x", []⟩ =
      ("/dashboard", ⟨none, none, []⟩) :=
  ⟨(C6_redirect_continuation ⟨none, none, []⟩ "/dashboard/reportes").1 (by decide),
   (C6_redirect_continuation ⟨none, none, []⟩ "/").2.1,
   (C6_redirect_continuation ⟨none, none, []⟩ "/").2.2⟩

/-- C10: `get_optional_user` returns the session unchanged in every
branch, and returns `none` both when the `user` value is absent and
when it is present but fails validation. -/
theorem C10_get_optional_user_none_and_frame (s : Session) :
    (get_optional_user s).2 = s ∧
    (s.user = none → (get_optional_user s).1 = none) ∧
    (∀ d, s.user = some d → User.fromDict d = none → (get_optional_user s).1 = none) := by
  obtain ⟨u, rd, oth⟩ := s
  refine ⟨?_, ?_, ?_⟩
  · cases u with
    | none => rfl
    | some d =>
      by_cases hd : d = []
      · simp [get_optional_user, hd]
      · cases hu : User.fromDict d <;> simp [get_optional_user, hd, hu]
  · intro h
    simp only at h
    subst h
    rfl
  · intro d hsd hdec
    simp only at hsd
    subst hsd
    by_cases hd : d = []
    · simp [get_optional_user, hd]
    · simp [get_optional_user, hd, hdec]

/-- Witness for C10: an absent user value and a corrupt user value both
yield `none` with the session returned exactly as given. -/
theorem C10_witness :
    ((get_optional_user ⟨none, some "/profile", ["csrf"]⟩).1 = none ∧
     (get_optional_user ⟨none, some "/profile", ["csrf"]⟩).2 =
       ⟨none, some "/profile", ["csrf"]⟩) ∧
    ((get_optional_user ⟨some [("username", JVal.str "ab")], none, []⟩).1 = none ∧
     (get_optional_user ⟨some [("username", JVal.str "ab")], none, []⟩).2 =
       ⟨some [("username", JVal.str "ab")], none, []⟩) :=
  ⟨⟨(C10_get_optional_user_none_and_frame ⟨none, some "/profile", ["csrf"]⟩).2.1 rfl,
    (C10_get_optional_user_none_and_frame ⟨none, some "/profile", ["csrf"]⟩).1⟩,
   ⟨(C10_get_optional_user_none_and_frame ⟨some [("username", JVal.str "ab")], none, []⟩).2.2
      [("username", JVal.str "ab")] rfl (by decide),
    (C10_get_optional_user_none_and_frame ⟨some [("username", JVal.str "ab")], none, []⟩).1⟩⟩

/-- C1 counterexample: on a present but corrupt `user` value (username
of length 2, below the minimum of 3), `get_current_user` does not
record the intended path: the resulting session's
`redirect_after_login` is `none`, not the request path. -/
theorem C1_counterexample :
    User.fromDict [("username", JVal.str "ab"), ("name", JVal.str "Bob")] = none ∧
    (get_current_user "/profile"
        ⟨some [("username", JVal.str "ab"), ("name", JVal.str "Bob")], none, []⟩).1 =
      .httpError 401 "Sesión inválida" ∧
    (get_current_user "/profile"
        ⟨some [("username", JVal.str "ab"), ("name", JVal.str "Bob")], none, []⟩).2.redirect_after_login
      ≠ some "/profile" := by
  refine ⟨by decide, by decide, by decide⟩

/-- C1 amended: on an absent (or empty, hence falsy) `user` value,
`get_current_user` records the intended path and yields 401; on a
present non-empty value failing validation it yields 401 but clears the
whole session instead of recording the path. -/
theorem C1_amended (s : Session) (path : String) :
    (s.user = none →
      get_current_user path s =
        (.httpError 401 "No autenticado", { s with redirect_after_login := some path })) ∧
    (s.user = some [] →
      get_current_user path s =
        (.httpError 401 "No autenticado", { s with redirect_after_login := some path })) ∧
    (∀ d, s.user = some d → d ≠ [] → User.fromDict d = none →
      get_current_user path s = (.httpError 401 "Sesión inválida", Session.clear s)) := by
  obtain ⟨u, rd, oth⟩ := s
  refine ⟨?_, ?_, ?_⟩
  · intro h
    simp only at h
    subst h
    rfl
  · intro h
    simp only at h
    subst h
    rfl
  · intro d hsd hne hdec
    simp only at hsd
    subst hsd
    simp [get_current_user, hne, hdec, Session.clear]

/-- Witness for C1 amended: the three branches at concrete sessions. -/
theorem C1_witness :
    get_current_user "/dashboard" ⟨none, none, ["csrf"]⟩ =
      (.httpError 401 "No autenticado", ⟨none, some "/dashboard", ["csrf"]⟩) ∧
    get_current_user "/dashboard" ⟨some [], none, ["csrf"]⟩ =
      (.httpError 401 "No autenticado", ⟨some [], some "/dashboard", ["csrf"]⟩) ∧
    get_current_user "/dashboard" ⟨some [("username", JVal.null)], some "/x", ["csrf"]⟩ =
      (.httpError 401 "Sesión inválida", ⟨none, none, []⟩) :=
  ⟨(C1_amended ⟨none, none, ["csrf"]⟩ "/dashboard").1 rfl,
   (C1_amended ⟨some [], none, ["csrf"]⟩ "/dashboard").2.1 rfl,
   (C1_amended ⟨some [("username", JVal.null)], some "/x", ["csrf"]⟩ "/dashboard").2.2
     [("username", JVal.null)] rfl (by decide) (by decide)⟩

/-- C2 counterexample: an empty dictionary under `user` is present and
fails validation (both required fields missing), yet `get_current_user`
does not clear the session: it takes the falsy branch, records the
path, and leaves the `user` key and foreign keys in place. -/
theorem C2_counterexample :
    (⟨some [], none, ["csrf"]⟩ : Session).user = some [] ∧
    User.fromDict [] = none ∧
    get_current_user "/dashboard" ⟨some [], none, ["csrf"]⟩ =
      (.httpError 401 "No autenticado", ⟨some [], some "/dashboard", ["csrf"]⟩) ∧
    (get_current_user "/dashboard" ⟨some [], none, ["csrf"]⟩).2 ≠
      Session.clear ⟨some [], none, ["csrf"]⟩ := by
  refine ⟨rfl, rfl, by decide, by decide⟩

/-- C2 amended: for a `user` value that is present, non-empty (truthy)
and fails validation, `get_current_user` clears the entire session (all
keys) and yields 401; a present-but-empty `user` dictionary is instead
treated as an absent session. -/
theorem C2_amended (s : Session) (d : Dict) (path : String)
    (huser : s.user = some d) (hne : d ≠ []) (hdec : User.fromDict d = none) :
    get_current_user path s = (.httpError 401 "Sesión inválida", Session.clear s) := by
  obtain ⟨u, rd, oth⟩ := s
  simp only at huser
  subst huser
  simp [get_current_user, hne, hdec]

/-- Witness for C2 amended: a truthy corrupt payload in a session that
also holds a pending redirect and a foreign key leaves every key
removed. -/
theorem C2_witness :
    get_current_user "/profile"
        ⟨some [("username", JVal.str "x"), ("role", JVal.str "admin")], some "/old", ["csrf"]⟩ =
      (.httpError 401 "Sesión inválida", ⟨none, none, []⟩) :=
  C2_amended ⟨some [("username", JVal.str "x"), ("role", JVal.str "admin")], some "/old", ["csrf"]⟩
    [("username", JVal.str "x"), ("role", JVal.str "admin")] "/profile"
    rfl (by decide) (by decide)

/-- A credential table whose single record carries a hash token the
hasher cannot parse. -/
def badHashDb : List UserInDB :=
  [⟨"alice", "Alice Doe", "plain-oops", none, "user"⟩]

/-- C8 counterexample: with a stored hash token the hasher cannot
parse, the `HashFormatError` propagates out of `authenticate_user` and
out of the login handler as a fault, instead of being converted into an
authentication-failure response. -/
theorem C8_counterexample :
    authenticate_user toyCtx badHashDb "alice" "pw" = .error HashError.unknownHash ∧
    login toyCtx badHashDb "alice" "pw" ⟨none, none, []⟩ = .error HashError.unknownHash :=
  ⟨rfl, rfl⟩

/-- C8 amended: an unparseable stored hash yields a `HashFormatError`
distinct from any boolean non-match, and that error propagates
unchanged out of `authenticate_user` and out of the login handler
(nothing on the authentication path catches it). -/
theorem C8_amended (ctx : CryptContext) (db : List UserInDB) (username password : String)
    (r : UserInDB) (e : HashError)
    (hfind : find_by_username db username = some r)
    (hverify : verify_password ctx password r.hashed_pass = .error e) :
    authenticate_user ctx db username password = .error e ∧
    ∀ s, login ctx db username password s = .error e := by
  have hauth : authenticate_user ctx db username password = .error e := by
    simp [authenticate_user, hfind, hverify]
  exact ⟨hauth, fun s => by simp [login, hauth]⟩

/-- Witness for C8 amended at a concrete store and hasher. -/
theorem C8_witness :
    authenticate_user toyCtx [⟨"bob", "Bob", "nothash", none, "user"⟩] "bob" "pw" =
      .error HashError.unknownHash ∧
    login toyCtx [⟨"bob", "Bob", "nothash", none, "user"⟩] "bob" "pw" ⟨none, none, []⟩ =
      .error HashError.unknownHash :=
  ⟨(C8_amended toyCtx [⟨"bob", "Bob", "nothash", none, "user"⟩] "bob" "pw"
      ⟨"bob", "Bob", "nothash", none, "user"⟩ HashError.unknownHash (by decide) (by rfl)).1,
   (C8_amended toyCtx [⟨"bob", "Bob", "nothash", none, "user"⟩] "bob" "pw"
      ⟨"bob", "Bob", "nothash", none, "user"⟩ HashError.unknownHash (by decide) (by rfl)).2
     ⟨none, none, []⟩⟩

/-- C3: round-trip law: for every valid Identity (username 3-50 chars,
name 1-100 chars, optional email, any string role), validating the
serialized session value reconstructs an equal Identity:
`User.fromDict u.model_dump = some u`. -/
theorem C3_roundtrip (u : User)
    (h1 : 3 ≤ u.username.length) (h2 : u.username.length ≤ 50)
    (h3 : 1 ≤ u.name.length) (h4 : u.name.length ≤ 100) :
    User.fromDict u.model_dump = some u := by
  obtain ⟨un, nm, em, rl⟩ := u
  simp only at h1 h2 h3 h4
  cases em with
  | none =>
    simp [User.fromDict, User.model_dump, Dict.lookup, emailField, roleField, h1, h2, h3, h4]
  | some e =>
    simp [User.fromDict, User.model_dump, Dict.lookup, emailField, roleField, h1, h2, h3, h4]

/-- Witness for C3 at a concrete valid Identity with an email and a
non-default role. -/
theorem C3_witness :
    User.fromDict (User.model_dump ⟨"alice", "Alice Doe", some "alice@example.com", "admin"⟩) =
      some ⟨"alice", "Alice Doe", some "alice@example.com", "admin"⟩ :=
  C3_roundtrip ⟨"alice", "Alice Doe", some "alice@example.com", "admin"⟩
    (by decide) (by decide) (by decide) (by decide)

end UserAuth
